import Mathlib

/-!
Verification of the Armor API scam-detection engine against its
natural-language specification.

The definitions below are a shallow embedding of the Python source:
  * `core/enhanced_scorer.py`   (`EnhancedScamRiskScorer`)
  * `core/bert_classifier.py`   (`BertScamClassifier.predict`)
  * `core/advanced_features.py` (`AdvancedScamFeatureExtractor`)
  * `api/enhanced_routes.py`    (`scan_message`, `_fallback_scan`,
                                 `bulk_scan_messages`, `initialize_ai_components`,
                                 `force_ai_initialization`)
Python floats are modelled as rationals, Python dicts as association lists,
and calls into external libraries (torch, the `re` regex module) as explicit
function-valued parameters.
-/

namespace ArmorApi

/-! ### Python string primitives

Character-list implementations of the Python string operations used by the
source (`in` substring test, `.lower()`, `.strip()`, `.split()`), written as
structural recursions so they evaluate inside the kernel. -/

/-- `charsPrefix p l` is true when `p` is a prefix of `l`. -/
def charsPrefix : List Char → List Char → Bool
  | [], _ => true
  | _ :: _, [] => false
  | p :: ps, h :: hs => p == h && charsPrefix ps hs

/-- `charsContains pat hay` is Python's `pat in hay` on strings viewed as
character lists (the empty pattern occurs everywhere, as in Python). -/
def charsContains (pat : List Char) : List Char → Bool
  | [] => charsPrefix pat []
  | h :: hs => charsPrefix pat (h :: hs) || charsContains pat hs

/-- Python `pat in hay` for strings. -/
def strContains (hay pat : String) : Bool :=
  charsContains pat.data hay.data

/-- Python `str.lower()` (ASCII case folding, which covers the source's
keyword tables and realistic message text). -/
def lowerStr (s : String) : String :=
  ⟨s.data.map Char.toLower⟩

/-- ASCII whitespace, as stripped by Python `str.strip()`. -/
def isWsChar (c : Char) : Bool :=
  c == ' ' || c == '\t' || c == '\n' || c == '\r'

/-- Python `str.strip()`. -/
def pyStrip (s : String) : String :=
  ⟨((s.data.dropWhile isWsChar).reverse.dropWhile isWsChar).reverse⟩

/-! ### Feature vectors

`AdvancedScamFeatureExtractor.extract` returns a Python dict whose values are
booleans, numbers or strings; we model it as an association list over a sum
of those value kinds. -/

/-- A Python dict value as produced by the feature extractor. -/
inductive FVal where
  | b (v : Bool)
  | n (v : ℚ)
  | s (v : String)
deriving DecidableEq

/-- A feature dict: ordered key/value association list. -/
abbrev Features := List (String × FVal)

/-- Python truthiness of a feature value (`if features[feature]:`). -/
def truthy : FVal → Bool
  | .b v => v
  | .n v => v != 0
  | .s v => v != ""

/-! ### `EnhancedScamRiskScorer` (core/enhanced_scorer.py) -/

/-- The fixed feature→weight table from
`EnhancedScamRiskScorer._initialize_weights`. -/
def feature_weights : List (String × ℚ) :=
  [("personal_keywords", 8/10),
   ("threats_keywords", 7/10),
   ("urgency_keywords", 6/10),
   ("suspicious_url_count", 9/10),
   ("has_urls", 4/10),
   ("money_keywords", 5/10),
   ("action_keywords", 4/10),
   ("trust_keywords", 3/10),
   ("has_contact_info", 3/10),
   ("uppercase_ratio", 3/10),
   ("exclamation_count", 2/10),
   ("sender_suspicious", 6/10),
   ("is_night_time", 2/10),
   ("sender_is_email", -1/10),
   ("sentence_count", -5/100)]

/-- Contribution of one (truthy) feature value at weight `w`: booleans give
the full weight, numerics are normalised by `min(v / 10, 1.0)`, other types
contribute `0` (the `else` branch in `_calculate_rule_score`). -/
def contribution (w : ℚ) : FVal → ℚ
  | .b v => if v then w else 0
  | .n v => w * min (v / 10) 1
  | .s _ => 0

/-- `EnhancedScamRiskScorer._calculate_rule_score`: sum the weighted
contributions of the truthy configured features, then cap at `1.0`
(the source applies `min(score, 1.0)` and no lower cap). -/
def calculate_rule_score (features : Features) : ℚ :=
  min
    (feature_weights.foldl
      (fun acc fw =>
        match features.lookup fw.1 with
        | some v => if truthy v then acc + contribution fw.2 v else acc
        | none => acc)
      0)
    1

/-! ### `BertScamClassifier.predict` (core/bert_classifier.py) -/

/-- The classifier handle: whether its `model` / `tokenizer` attributes are
loaded (non-`None`), and the torch inference path it runs when both are
loaded, modelled as an abstract text → (probability, confidence) function. -/
structure Classifier where
  modelLoaded : Bool
  tokenizerLoaded : Bool
  predictLoaded : String → ℚ × ℚ

/-- `BertScamClassifier.predict`: `if not self.model or not self.tokenizer:
return 0.5, 0.0`, otherwise run the loaded model. -/
def predict (c : Classifier) (text : String) : ℚ × ℚ :=
  if !c.modelLoaded || !c.tokenizerLoaded then (1/2, 0)
  else c.predictLoaded text

/-- `EnhancedScamRiskScorer._get_risk_level`. -/
def get_risk_level (score : ℚ) : String :=
  if score ≥ 8/10 then "CRITICAL RISK"
  else if score ≥ 6/10 then "HIGH RISK"
  else if score ≥ 4/10 then "MEDIUM RISK"
  else if score ≥ 2/10 then "LOW RISK"
  else "MINIMAL RISK"

/-- The numeric fields of the `detailed_analysis` dict returned by
`EnhancedScamRiskScorer.score`, together with the returned final score. -/
structure ScoreAnalysis where
  final_score : ℚ
  bert_score : ℚ
  bert_confidence : ℚ
  rule_score : ℚ
  risk_level : String
deriving DecidableEq

/-- `EnhancedScamRiskScorer.score`: BERT prediction, rule score, then the
weighted ensemble `bert * 0.7 + rule * 0.3` clamped to `[0, 1]`. -/
def scorer_score (c : Classifier) (text : String) (features : Features) :
    ScoreAnalysis :=
  let p := predict c text
  let rule_score := calculate_rule_score features
  let raw := p.1 * (7/10) + rule_score * (3/10)
  let final_score := min (max raw 0) 1
  { final_score := final_score
    bert_score := p.1
    bert_confidence := p.2
    rule_score := rule_score
    risk_level := get_risk_level final_score }

/-- Clamp, as written in the specification: `clamp(x, lo, hi)`. -/
def clamp (x lo hi : ℚ) : ℚ :=
  min (max x lo) hi

/-! ### AI component lifecycle (api/enhanced_routes.py, `AI_COMPONENTS` /
`initialize_ai_components` / `force_ai_initialization`) -/

/-- The mutable global `AI_COMPONENTS` dict: the `initialized` and
`initialization_failed` flags, the `last_attempt` timestamp
(`None` initially) and whether `risk_scorer` is a live object
(`AI_COMPONENTS['risk_scorer'] is not None`). -/
structure AIState where
  initialized : Bool
  initialization_failed : Bool
  last_attempt : Option ℚ
  has_risk_scorer : Bool
deriving DecidableEq

/-- Result of the worker thread that loads the BERT classifier, feature
extractor and scorer: it either returns the components or fails (exception
inside the worker, a `None` result, or the 120 s queue timeout). -/
inductive LoadOutcome where
  | success
  | failure
deriving DecidableEq

/-- `initialize_ai_components`, as a function of the current state, the
current `time.time()` and the outcome the load worker would produce.
Returns the new state and whether a load attempt was actually started.

Source behaviour: return immediately if `initialized` or
`initialization_failed`; return if a previous attempt is recorded and lies
within the 300 s backoff window; otherwise stamp `last_attempt` and run the
worker. On success the components are installed and `initialized` is set;
on any failure `initialization_failed` is set and
`_initialize_fallback_components` installs only the feature extractor and
sets `initialized` (the risk scorer stays `None`). -/
def initialize_ai_components (st : AIState) (now : ℚ) (load : LoadOutcome) :
    AIState × Bool :=
  if st.initialized || st.initialization_failed then (st, false)
  else if (match st.last_attempt with
           | some t => t != 0 && now - t < 300
           | none => false) then (st, false)
  else
    match load with
    | .success =>
        ({ st with last_attempt := some now, initialized := true,
                   has_risk_scorer := true }, true)
    | .failure =>
        ({ st with last_attempt := some now, initialization_failed := true,
                   initialized := true, has_risk_scorer := false }, true)

/-- The state reset performed by `POST /debug/force-init` before it calls
`initialize_ai_components` again. -/
def force_init_reset (st : AIState) : AIState :=
  { st with initialized := false, initialization_failed := false,
            last_attempt := none }

/-! ### `_fallback_scan` (api/enhanced_routes.py) -/

/-- The keyword list of `_fallback_scan`. -/
def fallback_suspicious_keywords : List String :=
  ["urgent", "immediate", "verify", "suspended", "click here", "act now",
   "limited time", "congratulations", "winner", "lottery", "inheritance",
   "bitcoin", "cryptocurrency", "investment", "loan", "credit card",
   "bank account", "social security", "irs", "refund", "tax"]

/-- The urgency indicator list of `_fallback_scan`. -/
def fallback_urgency_indicators : List String :=
  ["urgent", "immediate", "act now", "limited time"]

/-- Number of suspicious keywords found in the lower-cased message. -/
def fallback_found_count (message_lower : String) : Nat :=
  (fallback_suspicious_keywords.filter
    (fun kw => strContains message_lower kw)).length

/-- `keyword_score = min(len(found_keywords) * 0.2, 0.8)`. -/
def fallback_keyword_score (message_lower : String) : ℚ :=
  min ((fallback_found_count message_lower : ℚ) * (2/10)) (8/10)

/-- `urgency_score = 0.3 if any(...) else 0`. -/
def fallback_urgency_score (message_lower : String) : ℚ :=
  if fallback_urgency_indicators.any (fun ind => strContains message_lower ind)
  then 3/10 else 0

/-- The risk-level / classification table used only inside `_fallback_scan`. -/
def fallback_classify (risk_score : ℚ) : String × String :=
  if risk_score ≥ 7/10 then ("high", "suspicious")
  else if risk_score ≥ 4/10 then ("medium", "questionable")
  else ("low", "likely_safe")

/-- The fields of the response dict built by `/scan` and `_fallback_scan`
that the specification talks about. `classification` and `confidence` are
optional because the too-short response carries neither key;
`fallback_mode` mirrors `features["fallback_mode"]`. -/
structure ScanResult where
  error : Option String
  risk_score : ℚ
  risk_level : String
  classification : Option String
  confidence : Option ℚ
  fallback_mode : Bool
  model_version : Option String
deriving DecidableEq

/-- `_fallback_scan message sender start_time`: keyword score plus urgency
score (no clamp), classified by `fallback_classify`, fixed confidence
`0.65`, flagged with `fallback_mode: True` and model version
`Fallback-v1.0`. -/
def fallback_scan (message : String) : ScanResult :=
  let message_lower := lowerStr message
  let risk_score :=
    fallback_keyword_score message_lower + fallback_urgency_score message_lower
  let lc := fallback_classify risk_score
  { error := none
    risk_score := risk_score
    risk_level := lc.1
    classification := some lc.2
    confidence := some (65/100)
    fallback_mode := true
    model_version := some "Fallback-v1.0" }

/-! ### `/scan` (api/enhanced_routes.py, `scan_message`) -/

/-- The risk-level / classification table of the single-item `/scan`
AI path. -/
def scan_classify (risk_score : ℚ) : String × String :=
  if risk_score ≥ 8/10 then ("critical", "scam")
  else if risk_score ≥ 6/10 then ("high", "phishing")
  else if risk_score ≥ 4/10 then ("medium", "suspicious")
  else if risk_score ≥ 2/10 then ("low", "questionable")
  else ("safe", "legitimate")

/-- The `/scan` response for a message shorter than 3 characters after
stripping: an error entry with `risk_score 0.0`, `risk_level "low"` and no
`classification` or `confidence` keys. -/
def scan_too_short : ScanResult :=
  { error := some "Message too short to analyze."
    risk_score := 0
    risk_level := "low"
    classification := none
    confidence := none
    fallback_mode := false
    model_version := none }

/-- The state `/scan` observes after its lazy-initialization step: it calls
`initialize_ai_components` only when neither `initialized` nor
`initialization_failed` is set. -/
def scan_post_init (st : AIState) (now : ℚ) (load : LoadOutcome) : AIState :=
  if !st.initialized && !st.initialization_failed then
    (initialize_ai_components st now load).1
  else st

/-- `scan_message`. The AI branch (feature extraction plus
`risk_scorer.score`) is abstracted as `ai_score`, returning either
`(risk_score, bert_confidence)` or the message of the exception it raised;
with `risk_scorer = None` the branch raises before producing a score, which
the route catches and answers with `_fallback_scan`. -/
def scan_message (st : AIState) (now : ℚ) (load : LoadOutcome)
    (ai_score : String → Except String (ℚ × ℚ)) (text : String) : ScanResult :=
  let message := pyStrip text
  if message.length < 3 then scan_too_short
  else
    let st' := scan_post_init st now load
    if !st'.initialized then fallback_scan message
    else
      match (if st'.has_risk_scorer then ai_score message
             else Except.error "NoneType object has no attribute score") with
      | .ok sc =>
          let lc := scan_classify sc.1
          { error := none
            risk_score := sc.1
            risk_level := lc.1
            classification := some lc.2
            confidence := some sc.2
            fallback_mode := false
            model_version := some "Elephas-AI-v2.0" }
      | .error _ => fallback_scan message

/-! ### `/scan/bulk` (api/enhanced_routes.py, `bulk_scan_messages`) -/

/-- One item of a bulk request: `msg_data.get('id')` may be absent
(defaulting to `msg_{len(results)}`), `text` and `sender` default to `""`. -/
structure BulkItem where
  id : Option String
  text : String
  sender : String
deriving DecidableEq

/-- One entry of the bulk `results` list. -/
structure BulkEntry where
  id : String
  risk_score : ℚ
  risk_level : String
  classification : Option String
  confidence : Option ℚ
  error : Option String
deriving DecidableEq

/-- The risk-level table of the bulk path (line 1151). -/
def bulk_risk_level (risk_score : ℚ) : String :=
  if risk_score ≥ 8/10 then "critical"
  else if risk_score ≥ 6/10 then "high"
  else if risk_score ≥ 4/10 then "medium"
  else if risk_score ≥ 2/10 then "low"
  else "safe"

/-- The classification field of the bulk path (line 1160). -/
def bulk_classification (risk_score : ℚ) : String :=
  if risk_score ≥ 7/10 then "scam"
  else if risk_score ≥ 4/10 then "suspicious"
  else "safe"

/-- Processing of a single bulk item at position `i` (which is
`len(results)` at the time the item is handled, hence the default id).
`f` abstracts the scoring of one item — the AI ensemble or the inline
keyword fallback, returning `.error` when that code raises — exactly the
body of the per-item `try`. -/
def process_bulk_item (f : BulkItem → Except String (ℚ × ℚ)) (i : Nat)
    (item : BulkItem) : BulkEntry :=
  let msgId := item.id.getD ("msg_" ++ toString i)
  let message := pyStrip item.text
  if message.length < 3 then
    { id := msgId, risk_score := 0, risk_level := "safe",
      classification := some "too_short", confidence := none, error := none }
  else
    match f item with
    | .ok sc =>
        { id := msgId, risk_score := sc.1, risk_level := bulk_risk_level sc.1,
          classification := some (bulk_classification sc.1),
          confidence := some sc.2, error := none }
    | .error e =>
        { id := msgId, risk_score := 0, risk_level := "unknown",
          classification := none, confidence := none, error := some e }

/-- The `results` list: one entry per input message, in input order,
appended by the loop (so the running index is `len(results)`). -/
def process_bulk_list (f : BulkItem → Except String (ℚ × ℚ)) :
    Nat → List BulkItem → List BulkEntry
  | _, [] => []
  | i, item :: rest =>
      process_bulk_item f i item :: process_bulk_list f (i + 1) rest

/-- The `summary` block: `len([r for r in results if r.get('risk_level') == lvl])`
for each of the five levels. -/
structure BulkSummary where
  safe : Nat
  low : Nat
  medium : Nat
  high : Nat
  critical : Nat
deriving DecidableEq

/-- Build the summary from the results list. -/
def mkSummary (results : List BulkEntry) : BulkSummary :=
  { safe := (results.filter (fun r => r.risk_level == "safe")).length
    low := (results.filter (fun r => r.risk_level == "low")).length
    medium := (results.filter (fun r => r.risk_level == "medium")).length
    high := (results.filter (fun r => r.risk_level == "high")).length
    critical := (results.filter (fun r => r.risk_level == "critical")).length }

/-- The bulk response fields the specification talks about. -/
structure BulkResponse where
  total_messages : Nat
  processed : Nat
  results : List BulkEntry
  summary : BulkSummary
deriving DecidableEq

/-- The accepted branch of `bulk_scan_messages`. -/
def bulk_ok (f : BulkItem → Except String (ℚ × ℚ)) (messages : List BulkItem) :
    BulkResponse :=
  let results := process_bulk_list f 0 messages
  { total_messages := messages.length
    processed := results.length
    results := results
    summary := mkSummary results }

/-- `bulk_scan_messages`: reject batches of more than 100 messages with a
400 error before the per-item loop runs; otherwise process every item. -/
def bulk_scan (f : BulkItem → Except String (ℚ × ℚ))
    (messages : List BulkItem) : Except String BulkResponse :=
  if messages.length > 100 then
    Except.error "Maximum 100 messages per bulk scan"
  else
    Except.ok (bulk_ok f messages)

/-! ### `AdvancedScamFeatureExtractor` (core/advanced_features.py)

The three compiled regexes (`url_pattern`, `phone_pattern`, `email_pattern`)
and `urllib.parse.urlparse` are external library calls; they are passed in
as an explicit `RegexOracle` so that every theorem about the extractor holds
for all of their behaviours. -/

/-- Python `text.split()`: split on whitespace runs, dropping empties. -/
def splitWsAux : List Char → List Char → List String
  | [], acc => if acc.isEmpty then [] else [⟨acc.reverse⟩]
  | c :: cs, acc =>
      if isWsChar c then
        if acc.isEmpty then splitWsAux cs []
        else ⟨acc.reverse⟩ :: splitWsAux cs []
      else splitWsAux cs (c :: acc)

/-- Python `text.split()`. -/
def pySplitWs (s : String) : List String :=
  splitWsAux s.data []

/-- Python `text.split('.')`: split on dots, keeping empties. -/
def splitDotAux : List Char → List Char → List String
  | [], acc => [⟨acc.reverse⟩]
  | c :: cs, acc =>
      if c == '.' then ⟨acc.reverse⟩ :: splitDotAux cs []
      else splitDotAux cs (c :: acc)

/-- Python `text.split('.')`. -/
def pySplitDot (s : String) : List String :=
  splitDotAux s.data []

/-- Python `word.isupper()` (ASCII): at least one letter, and every letter
is upper case. -/
def pyIsUpper (s : String) : Bool :=
  s.data.any Char.isAlpha && s.data.all (fun c => !c.isAlpha || c.isUpper)

/-- Matches of `(.)\1{2,}`: one per maximal run of three or more equal
characters (the regex is greedy, so each qualifying run gives one
non-overlapping match). -/
def repeatedRunsAux : Option (Char × Nat) → List Char → Nat
  | none, [] => 0
  | some run, [] => if run.2 ≥ 3 then 1 else 0
  | none, c :: cs => repeatedRunsAux (some (c, 1)) cs
  | some run, c :: cs =>
      if c == run.1 then repeatedRunsAux (some (run.1, run.2 + 1)) cs
      else (if run.2 ≥ 3 then 1 else 0) + repeatedRunsAux (some (c, 1)) cs

/-- `len(re.findall(r'(.)\1{2,}', text_lower))`. -/
def repeated_chars_count (l : List Char) : Nat :=
  repeatedRunsAux none l

/-- `len(re.findall(r'\d+', text))`: number of maximal digit runs. -/
def digit_runs_count : Bool → List Char → Nat
  | _, [] => 0
  | inRun, c :: cs =>
      if c.isDigit then (if inRun then 0 else 1) + digit_runs_count true cs
      else digit_runs_count false cs

/-- Python `text.count(ch)` for a single character. -/
def countChar (s : String) (ch : Char) : Nat :=
  (s.data.filter (fun c => c == ch)).length

/-- The `self.scam_keywords` category → keyword-list table. -/
def scam_keywords : List (String × List String) :=
  [("urgency", ["urgent", "immediately", "expires", "limited time",
                "act now", "hurry"]),
   ("money", ["prize", "winner", "free", "cash", "reward", "million",
              "inheritance", "$", "£", "€"]),
   ("trust", ["government", "bank", "official", "verify", "confirm",
              "security"]),
   ("action", ["click", "download", "install", "call now", "reply",
               "forward"]),
   ("threats", ["suspended", "blocked", "fraud", "unauthorized", "violation",
                "penalty"]),
   ("personal", ["ssn", "social security", "credit card", "password", "pin",
                 "account number"])]

/-- External regex/urlparse behaviour: the match lists of the three compiled
patterns and the suspicious-domain test performed on each found URL
(`urlparse(url).netloc` containment in `self.suspicious_domains`, false when
that code raises). -/
structure RegexOracle where
  urls : String → List String
  domainSuspicious : String → Bool
  phone_count : String → Nat
  email_count : String → Nat

/-- `_extract_basic_features`. -/
def basic_features (text : String) : Features :=
  [("length", FVal.n text.length),
   ("word_count", FVal.n (pySplitWs text).length),
   ("char_count", FVal.n text.length),
   ("uppercase_ratio",
     FVal.n (((text.data.filter Char.isUpper).length : ℚ) /
       (max text.length 1 : ℚ))),
   ("digit_ratio",
     FVal.n (((text.data.filter Char.isDigit).length : ℚ) /
       (max text.length 1 : ℚ))),
   ("punctuation_count",
     FVal.n ((text.data.filter
       (fun c => "!@#$%^&*()".data.contains c)).length)),
   ("exclamation_count", FVal.n (countChar text '!')),
   ("question_count", FVal.n (countChar text '?'))]

/-- The per-category keyword counts and flags of
`_extract_content_features`. -/
def keyword_features (text_lower : String) : Features :=
  scam_keywords.foldr
    (fun cat acc =>
      let count := (cat.2.filter (fun kw => strContains text_lower kw)).length
      (cat.1 ++ "_keywords", FVal.n count) ::
      ("has_" ++ cat.1 ++ "_keywords", FVal.b (decide (0 < count))) :: acc)
    []

/-- `_extract_content_features`. -/
def content_features (ro : RegexOracle) (text text_lower : String) :
    Features :=
  keyword_features text_lower ++
  (let urls := ro.urls text
   [("url_count", FVal.n urls.length),
    ("has_urls", FVal.b (decide (0 < urls.length))),
    ("suspicious_url_count",
      FVal.n ((urls.filter ro.domainSuspicious).length))]) ++
  [("phone_count", FVal.n (ro.phone_count text)),
   ("email_count", FVal.n (ro.email_count text)),
   ("has_contact_info",
     FVal.b (decide (0 < ro.phone_count text) ||
       decide (0 < ro.email_count text)))] ++
  (let words := pySplitWs text_lower
   if words.isEmpty then []
   else
     [("avg_word_length",
        FVal.n (((words.map String.length).sum : ℚ) / (words.length : ℚ))),
      ("long_words_ratio",
        FVal.n (((words.filter (fun w => w.length > 8)).length : ℚ) /
          (words.length : ℚ)))])

/-- `_extract_linguistic_features`. -/
def linguistic_features (text text_lower : String) : Features :=
  let sentences := pySplitDot text
  [("sentence_count",
     FVal.n ((sentences.filter
       (fun s => !(pyStrip s).isEmpty)).length)),
   ("avg_sentence_length",
     FVal.n (((pySplitWs text).length : ℚ) / (max sentences.length 1 : ℚ))),
   ("caps_lock_words",
     FVal.n (((pySplitWs text).filter
       (fun w => pyIsUpper w && decide (w.length > 2))).length)),
   ("repeated_chars", FVal.n (repeated_chars_count text_lower.data)),
   ("numbers_in_text", FVal.n (digit_runs_count false text.data)),
   ("currency_symbols",
     FVal.n (countChar text '$' + countChar text '£' + countChar text '€'))]

/-- `_extract_sender_features`. -/
def sender_features (sender : String) : Features :=
  if sender.isEmpty then [("sender_analysis", FVal.n 0)]
  else
    let sender_lower := lowerStr sender
    [("sender_length", FVal.n sender.length),
     ("sender_has_numbers", FVal.b (sender.data.any Char.isDigit)),
     ("sender_suspicious",
       FVal.b (["noreply", "donotreply", "alert", "security"].any
         (fun t => strContains sender_lower t))),
     ("sender_is_email", FVal.b (sender.data.contains '@')),
     ("sender_is_phone",
       FVal.b
         (let cleaned := sender.data.filter
           (fun c => !(c == '-' || c == ' ' || c == '(' || c == ')'))
          !cleaned.isEmpty && cleaned.all Char.isDigit))]

/-- Caller-supplied metadata, a Python dict like the feature vector. -/
abbrev Metadata := List (String × FVal)

/-- The numeric reading of `metadata.get('hour', 12)` used by the
`is_night_time` comparison (a Python bool compares as 0/1; a non-numeric
hour would raise a `TypeError` in the source and is not modelled). -/
def metaHour (metadata : Metadata) : ℚ :=
  match metadata.lookup "hour" with
  | some (.n v) => v
  | some (.b v) => if v then 1 else 0
  | _ => 12

/-- `_extract_metadata_features`: the raw `get` defaults for the stored
values, and the numeric night-time comparison. -/
def metadata_features (metadata : Metadata) : Features :=
  [("time_of_day", (metadata.lookup "hour").getD (FVal.n 12)),
   ("is_weekend", (metadata.lookup "is_weekend").getD (FVal.b false)),
   ("is_night_time",
     FVal.b (decide (metaHour metadata < 6) || decide (metaHour metadata > 22))),
   ("message_type", (metadata.lookup "type").getD (FVal.s "unknown"))]

/-- `AdvancedScamFeatureExtractor.extract`: the dict updates of the five
signal families, where the metadata family is added only when the metadata
dict is truthy — i.e. skipped entirely for `None` or an empty dict. -/
def extract (ro : RegexOracle) (text sender : String) (metadata : Metadata) :
    Features :=
  let text_lower := lowerStr text
  basic_features text ++
  content_features ro text text_lower ++
  linguistic_features text text_lower ++
  sender_features sender ++
  (if metadata.isEmpty then [] else metadata_features metadata)

/-- An oracle for texts on which none of the three regexes match (no
`http` URLs, phone numbers or e-mail addresses). -/
def noMatchOracle : RegexOracle :=
  { urls := fun _ => []
    domainSuspicious := fun _ => false
    phone_count := fun _ => 0
    email_count := fun _ => 0 }

/-- The AI branch of `/scan` assembled from the embedded components:
extract features for the stripped message, then run
`EnhancedScamRiskScorer.score`, returning the final score and the BERT
confidence (this branch raises no exception). -/
def ai_score_real (ro : RegexOracle) (c : Classifier) (sender : String)
    (metadata : Metadata) : String → Except String (ℚ × ℚ) :=
  fun message =>
    let analysis := scorer_score c message (extract ro message sender metadata)
    Except.ok (analysis.final_score, analysis.bert_confidence)

end ArmorApi

namespace ArmorApi

/-! ## Helper lemmas -/

/-- Projections of `fallback_scan` in terms of its score components. -/
theorem fallback_scan_risk_score (message : String) :
    (fallback_scan message).risk_score =
      fallback_keyword_score (lowerStr message) +
        fallback_urgency_score (lowerStr message) :=
  rfl

/-- The risk level of `fallback_scan` is its private table applied to its
score. -/
theorem fallback_scan_risk_level (message : String) :
    (fallback_scan message).risk_level =
      (fallback_classify ((fallback_scan message).risk_score)).1 :=
  rfl

/-! ## C1 -/

/-- C1: for every classifier handle, input text and feature vector, the
final score returned by `EnhancedScamRiskScorer.score` is
`clamp(0.7 × classifier probability + 0.3 × ruleScore, 0, 1)`, and the
`bert_confidence` it returns is exactly the confidence produced by
`BertScamClassifier.predict`. -/
theorem ensemble_score_formula (c : Classifier) (text : String)
    (features : Features) :
    (scorer_score c text features).final_score =
      clamp ((7/10) * (predict c text).1 +
        (3/10) * calculate_rule_score features) 0 1 ∧
    (scorer_score c text features).bert_confidence = (predict c text).2 := by
  constructor
  · show min (max ((predict c text).1 * (7/10) +
        calculate_rule_score features * (3/10)) 0) 1 = _
    unfold clamp
    ring_nf
  · rfl

/-! ## C2 -/

/-- C2 counterexample: the rule-fallback path of `/scan` returns a risk
score of `1.1 > 1` for a message containing four suspicious keywords plus
an urgency indicator, so the returned riskScore does not lie in `[0, 1]`
on every path; moreover the rule-based score of the ensemble scorer is not
clamped below `0` (a lone protective feature makes it `-0.1`). -/
theorem fallback_risk_score_exceeds_one :
    (fallback_scan "urgent immediate verify suspended").risk_score = 11/10 ∧
    ¬ (fallback_scan "urgent immediate verify suspended").risk_score ≤ 1 ∧
    calculate_rule_score [("sender_is_email", FVal.b true)] = -1/10 := by
  have hcount :
      fallback_found_count (lowerStr "urgent immediate verify suspended") =
        4 := by decide
  have hurg :
      (fallback_urgency_indicators.any
        (fun ind =>
          strContains (lowerStr "urgent immediate verify suspended") ind)) =
        true := by decide
  have hscore :
      (fallback_scan "urgent immediate verify suspended").risk_score =
        11/10 := by
    rw [fallback_scan_risk_score, fallback_keyword_score, hcount,
      fallback_urgency_score, if_pos hurg]
    norm_num [min_def]
  refine ⟨hscore, by rw [hscore]; norm_num, ?_⟩
  simp [calculate_rule_score, feature_weights, List.lookup, truthy,
    contribution]
  norm_num [min_def]

/-- C2 amended: the riskScore is in `[0, 1]` on the ML-ensemble path
(where the source clamps) and on the too-short path (score `0`); the
rule-based score of the ensemble scorer is capped above at `1` but has no
lower clamp; and the `/scan` rule-fallback path is bounded only by `1.1`
(keyword score at most `0.8` plus urgency bonus at most `0.3`), not `1`. -/
theorem risk_score_bounds (c : Classifier) (text : String)
    (features : Features) (message : String) :
    0 ≤ (scorer_score c text features).final_score ∧
    (scorer_score c text features).final_score ≤ 1 ∧
    scan_too_short.risk_score = 0 ∧
    calculate_rule_score features ≤ 1 ∧
    (fallback_scan message).risk_score ≤ 11/10 := by
  refine ⟨?_, ?_, rfl, min_le_right _ _, ?_⟩
  · show 0 ≤ min (max _ 0) 1
    exact le_min (le_max_right _ _) zero_le_one
  · exact min_le_right _ _
  · rw [fallback_scan_risk_score]
    have h1 : fallback_keyword_score (lowerStr message) ≤ 8/10 :=
      min_le_right _ _
    have h2 : fallback_urgency_score (lowerStr message) ≤ 3/10 := by
      unfold fallback_urgency_score
      split <;> norm_num
    linarith

/-! ## C3 -/

/-- C3 counterexample: the three paths do not share one risk-level table.
A fallback scan with four suspicious keywords and no urgency indicator has
risk score exactly `0.8`, which `_fallback_scan` labels `"high"`, while the
single-item AI path and the bulk path label the same score `"critical"`. -/
theorem risk_level_tables_disagree :
    (fallback_scan "verify suspended winner lottery").risk_score = 8/10 ∧
    (fallback_scan "verify suspended winner lottery").risk_level = "high" ∧
    (scan_classify (8/10)).1 = "critical" ∧
    bulk_risk_level (8/10) = "critical" ∧
    "high" ≠ "critical" := by
  have hcount :
      fallback_found_count (lowerStr "verify suspended winner lottery") =
        4 := by decide
  have hurg :
      (fallback_urgency_indicators.any
        (fun ind =>
          strContains (lowerStr "verify suspended winner lottery") ind)) =
        false := by decide
  have hscore :
      (fallback_scan "verify suspended winner lottery").risk_score =
        8/10 := by
    rw [fallback_scan_risk_score, fallback_keyword_score, hcount,
      fallback_urgency_score, hurg]
    norm_num [min_def]
  refine ⟨hscore, ?_, ?_, ?_, by decide⟩
  · rw [fallback_scan_risk_level, hscore]
    unfold fallback_classify
    norm_num
  · unfold scan_classify
    norm_num
  · unfold bulk_risk_level
    norm_num

/-- C3 amended: the single-item AI path and the bulk path do share one
monotonic, non-overlapping boundary table (`≥ 0.8` critical, `[0.6, 0.8)`
high, `[0.4, 0.6)` medium, `[0.2, 0.4)` low, `< 0.2` safe) and classify
every score identically; the rule-fallback path however uses its own
coarser table (`≥ 0.7` high, `[0.4, 0.7)` medium, `< 0.4` low). -/
theorem scan_bulk_level_table (s : ℚ) :
    (scan_classify s).1 = bulk_risk_level s ∧
    (bulk_risk_level s = "critical" ↔ 8/10 ≤ s) ∧
    (bulk_risk_level s = "high" ↔ 6/10 ≤ s ∧ s < 8/10) ∧
    (bulk_risk_level s = "medium" ↔ 4/10 ≤ s ∧ s < 6/10) ∧
    (bulk_risk_level s = "low" ↔ 2/10 ≤ s ∧ s < 4/10) ∧
    (bulk_risk_level s = "safe" ↔ s < 2/10) ∧
    ((fallback_classify s).1 = "high" ↔ 7/10 ≤ s) ∧
    ((fallback_classify s).1 = "medium" ↔ 4/10 ≤ s ∧ s < 7/10) ∧
    ((fallback_classify s).1 = "low" ↔ s < 4/10) := by
  refine ⟨?_, ?_, ?_, ?_, ?_, ?_, ?_, ?_, ?_⟩
  · unfold scan_classify bulk_risk_level
    split_ifs <;> rfl
  all_goals
    simp only [bulk_risk_level, fallback_classify]
  all_goals
    split_ifs <;> simp_all <;>
      first
        | linarith
        | (intro h; linarith)

/-! ## C4 -/

/-- C4: whenever `/scan` finds the ML components unavailable after its lazy
initialization step — not initialized, or initialized in degraded mode with
the risk scorer missing (permanent failure) — it still produces a result
rather than surfacing an error: the full `_fallback_scan` response, flagged
with `fallback_mode` and carrying the fixed fallback confidence `0.65`. -/
theorem scan_unavailable_rule_fallback (st : AIState) (now : ℚ)
    (load : LoadOutcome) (f : String → Except String (ℚ × ℚ)) (text : String)
    (hlen : 3 ≤ (pyStrip text).length)
    (hun : (scan_post_init st now load).initialized = false ∨
      (scan_post_init st now load).has_risk_scorer = false) :
    scan_message st now load f text = fallback_scan (pyStrip text) ∧
    (scan_message st now load f text).confidence = some (65/100) ∧
    (scan_message st now load f text).fallback_mode = true ∧
    (scan_message st now load f text).error = none := by
  have hnot : ¬ (pyStrip text).length < 3 := by omega
  have hmain : scan_message st now load f text = fallback_scan (pyStrip text) := by
    unfold scan_message
    rw [if_neg hnot]
    rcases hun with h | h
    · simp [h]
    · cases hinit : (scan_post_init st now load).initialized with
      | false => simp [hinit]
      | true => simp [hinit, h]
  exact ⟨hmain, by rw [hmain]; rfl, by rw [hmain]; rfl, by rw [hmain]; rfl⟩

/-- C4 witness: a state representing a permanently failed initialization
(`initialization_failed` set, no retry possible, scorer absent) answers a
scan with the fallback confidence. -/
theorem scan_unavailable_rule_fallback_witness :
    (scan_message ⟨false, true, none, false⟩ 0 LoadOutcome.failure
        (fun _ => Except.error "e") "urgent message").confidence =
      some (65/100) :=
  (scan_unavailable_rule_fallback ⟨false, true, none, false⟩ 0
      LoadOutcome.failure (fun _ => Except.error "e") "urgent message"
      (by decide) (Or.inl (by decide))).2.1

/-! ## C5 -/

/-- C5: a bulk request with more than 100 messages is rejected with the
size-limit error, and the rejection is computed without consulting the
per-item scorer at all — the response is identical for any two scoring
behaviours `f` and `g`, so no item is processed on this path. -/
theorem bulk_oversize_rejected (f g : BulkItem → Except String (ℚ × ℚ))
    (messages : List BulkItem) (h : messages.length > 100) :
    bulk_scan f messages =
      Except.error "Maximum 100 messages per bulk scan" ∧
    bulk_scan f messages = bulk_scan g messages := by
  unfold bulk_scan
  rw [if_pos h, if_pos h]
  exact ⟨rfl, rfl⟩

/-- C5 witness: a batch of 101 items is rejected wholesale. -/
theorem bulk_oversize_rejected_witness :
    bulk_scan (fun _ => Except.error "boom")
        (List.replicate 101 ⟨none, "", ""⟩) =
      Except.error "Maximum 100 messages per bulk scan" :=
  (bulk_oversize_rejected (fun _ => Except.error "boom")
      (fun _ => Except.ok (0, 0)) (List.replicate 101 ⟨none, "", ""⟩)
      (by decide)).1

/-! ## C6 -/

/-- The per-item loop produces exactly one entry per input message. -/
theorem process_bulk_list_length (f : BulkItem → Except String (ℚ × ℚ)) :
    ∀ (i : Nat) (msgs : List BulkItem),
      (process_bulk_list f i msgs).length = msgs.length
  | _, [] => rfl
  | i, _ :: ms => by
      simp [process_bulk_list, process_bulk_list_length f (i + 1) ms]

/-- The entry at position `j` of the results list is exactly the processing
of the input item at position `j` (with the running counter offset). -/
theorem process_bulk_list_getElem (f : BulkItem → Except String (ℚ × ℚ)) :
    ∀ (msgs : List BulkItem) (i j : Nat),
      (process_bulk_list f i msgs)[j]? =
        (msgs[j]?).map (fun item => process_bulk_item f (i + j) item)
  | [], _, _ => by simp [process_bulk_list]
  | _ :: _, _, 0 => by simp [process_bulk_list]
  | _ :: ms, i, j + 1 => by
      simp [process_bulk_list, process_bulk_list_getElem f ms (i + 1) j,
        Nat.add_assoc, Nat.add_comm 1 j]

/-- C6: a bulk request within the cap is accepted; the results list has
exactly one entry per input message; the entry in slot `j` is the
processing of input item `j` alone — so an exception while scoring one item
(an `Except.error` from `f`) yields an error-tagged entry in that slot and
cannot influence any other slot; and every summary count equals the number
of result entries carrying that risk level. -/
theorem bulk_within_cap (f : BulkItem → Except String (ℚ × ℚ))
    (messages : List BulkItem) (h : messages.length ≤ 100) :
    bulk_scan f messages = Except.ok (bulk_ok f messages) ∧
    (bulk_ok f messages).results.length = messages.length ∧
    (∀ j : Nat, (bulk_ok f messages).results[j]? =
      (messages[j]?).map (fun item => process_bulk_item f j item)) ∧
    (bulk_ok f messages).summary.safe =
      (bulk_ok f messages).results.countP
        (fun r => r.risk_level == "safe") ∧
    (bulk_ok f messages).summary.low =
      (bulk_ok f messages).results.countP
        (fun r => r.risk_level == "low") ∧
    (bulk_ok f messages).summary.medium =
      (bulk_ok f messages).results.countP
        (fun r => r.risk_level == "medium") ∧
    (bulk_ok f messages).summary.high =
      (bulk_ok f messages).results.countP
        (fun r => r.risk_level == "high") ∧
    (bulk_ok f messages).summary.critical =
      (bulk_ok f messages).results.countP
        (fun r => r.risk_level == "critical") ∧
    (bulk_ok f messages).processed = messages.length ∧
    (bulk_ok f messages).total_messages = messages.length := by
  refine ⟨?_, process_bulk_list_length f 0 messages, ?_, ?_, ?_, ?_, ?_, ?_,
    process_bulk_list_length f 0 messages, rfl⟩
  · unfold bulk_scan
    rw [if_neg (by omega)]
  · intro j
    simpa using process_bulk_list_getElem f messages 0 j
  all_goals
    simp [bulk_ok, mkSummary, List.countP_eq_length_filter]

/-- C6 witness: a two-item batch where scoring raises on the second item
still yields one entry per item, accepted as a bulk response. -/
theorem bulk_within_cap_witness :
    bulk_scan
        (fun item =>
          if item.text == "boom" then Except.error "exception"
          else Except.ok (1/2, 9/10))
        [⟨some "a", "hello there", ""⟩, ⟨some "b", "boom", ""⟩] =
      Except.ok
        (bulk_ok
          (fun item =>
            if item.text == "boom" then Except.error "exception"
            else Except.ok (1/2, 9/10))
          [⟨some "a", "hello there", ""⟩, ⟨some "b", "boom", ""⟩]) :=
  (bulk_within_cap
      (fun item =>
        if item.text == "boom" then Except.error "exception"
        else Except.ok (1/2, 9/10))
      [⟨some "a", "hello there", ""⟩, ⟨some "b", "boom", ""⟩]
      (by decide)).1

/-! ## C7 -/

/-- C7 counterexample: the two too-short paths do not both return
`riskLevel = low` with `classification = "too_short"`. On the bulk path the
two-character message `"ok"` is classified `"too_short"` but its risk level
is `"safe"`, not `"low"`; on the single-item `/scan` path the risk level is
`"low"` but the response carries no classification field at all (it is an
error entry, logged with classification `"error"`). -/
theorem too_short_paths_counterexample :
    (process_bulk_item (fun _ => Except.error "unused") 0
        ⟨none, "ok", ""⟩).classification = some "too_short" ∧
    (process_bulk_item (fun _ => Except.error "unused") 0
        ⟨none, "ok", ""⟩).risk_level = "safe" ∧
    ¬ (process_bulk_item (fun _ => Except.error "unused") 0
        ⟨none, "ok", ""⟩).risk_level = "low" ∧
    (scan_message ⟨false, false, none, false⟩ 0 LoadOutcome.failure
        (fun _ => Except.error "unused") "ok").risk_level = "low" ∧
    (scan_message ⟨false, false, none, false⟩ 0 LoadOutcome.failure
        (fun _ => Except.error "unused") "ok").classification = none := by
  refine ⟨rfl, rfl, by decide, rfl, rfl⟩

/-- C7 amended: a message whose stripped length is below 3 short-circuits
on both paths without invoking the classifier or the rule engine (the
response does not depend on the scoring behaviour or on the AI state), but
the two paths answer differently: `/scan` returns `riskLevel = "low"` with
an error message and no classification, while the bulk path returns
`riskLevel = "safe"` with `classification = "too_short"`. -/
theorem too_short_short_circuit (st st2 : AIState) (now now2 : ℚ)
    (load load2 : LoadOutcome) (f g : String → Except String (ℚ × ℚ))
    (fb gb : BulkItem → Except String (ℚ × ℚ)) (text : String)
    (item : BulkItem) (i : Nat)
    (hlen : (pyStrip text).length < 3)
    (hitem : (pyStrip item.text).length < 3) :
    scan_message st now load f text = scan_too_short ∧
    scan_message st now load f text = scan_message st2 now2 load2 g text ∧
    scan_too_short.risk_level = "low" ∧
    scan_too_short.classification = none ∧
    scan_too_short.error = some "Message too short to analyze." ∧
    process_bulk_item fb i item =
      { id := item.id.getD ("msg_" ++ toString i), risk_score := 0,
        risk_level := "safe", classification := some "too_short",
        confidence := none, error := none } ∧
    process_bulk_item fb i item = process_bulk_item gb i item := by
  have h1 : scan_message st now load f text = scan_too_short := by
    unfold scan_message
    rw [if_pos hlen]
  have h2 : scan_message st2 now2 load2 g text = scan_too_short := by
    unfold scan_message
    rw [if_pos hlen]
  have h3 : process_bulk_item fb i item =
      { id := item.id.getD ("msg_" ++ toString i), risk_score := 0,
        risk_level := "safe", classification := some "too_short",
        confidence := none, error := none } := by
    unfold process_bulk_item
    rw [if_pos hitem]
  have h4 : process_bulk_item gb i item =
      { id := item.id.getD ("msg_" ++ toString i), risk_score := 0,
        risk_level := "safe", classification := some "too_short",
        confidence := none, error := none } := by
    unfold process_bulk_item
    rw [if_pos hitem]
  exact ⟨h1, h1.trans h2.symm, rfl, rfl, rfl, h3, h3.trans h4.symm⟩

/-- C7 amended witness: the two-character message `"ok"`. -/
theorem too_short_short_circuit_witness :
    scan_message ⟨true, false, none, true⟩ 5 LoadOutcome.success
        (fun _ => Except.ok (1, 1)) "ok" = scan_too_short :=
  (too_short_short_circuit ⟨true, false, none, true⟩ ⟨false, false, none, false⟩
      5 0 LoadOutcome.success LoadOutcome.failure (fun _ => Except.ok (1, 1))
      (fun _ => Except.error "e") (fun _ => Except.ok (0, 0))
      (fun _ => Except.error "e") "ok" ⟨none, "no", ""⟩ 0 (by decide)
      (by decide)).1

/-! ## C8 -/

/-- C8 counterexample: after a load failure (state with
`initialization_failed` set, `last_attempt` recorded at time 100), a new
initialization request at time 1000 — far beyond the 300-second backoff
window — still does not start a load attempt, because the
`initialization_failed` guard returns before the backoff check is ever
consulted; so elapsing the backoff window alone never re-enables loading,
contrary to the claim. -/
theorem no_retry_after_backoff_elapsed :
    (initialize_ai_components ⟨true, true, some 100, false⟩ 1000
        LoadOutcome.success).2 = false ∧
    (initialize_ai_components ⟨true, true, some 100, false⟩ 1000
        LoadOutcome.success).1 = ⟨true, true, some 100, false⟩ ∧
    (1000 : ℚ) - 100 ≥ 300 := by
  refine ⟨rfl, rfl, by norm_num⟩

/-- C8 amended: after a load failure the `initialization_failed` flag
short-circuits every later initialization request, no matter how much time
has passed — no new load attempt is ever started and the state is
unchanged. Only the explicit force-reset operation (which clears the
`initialized` / `initialization_failed` flags and `last_attempt`) re-enables
loading, and after it the very next request does start an attempt. -/
theorem failed_state_blocks_retry (st : AIState) (now now2 : ℚ)
    (load load2 : LoadOutcome)
    (h : st.initialization_failed = true) :
    (initialize_ai_components st now load).2 = false ∧
    (initialize_ai_components st now load).1 = st ∧
    (initialize_ai_components (force_init_reset st) now2 load2).2 = true := by
  refine ⟨?_, ?_, ?_⟩
  · unfold initialize_ai_components
    simp [h]
  · unfold initialize_ai_components
    simp [h]
  · unfold initialize_ai_components force_init_reset
    cases load2 <;> simp

/-- C8 amended witness: the failed state at a time far past the backoff
window, and the same state after a force reset. -/
theorem failed_state_blocks_retry_witness :
    (initialize_ai_components ⟨true, true, some 100, true⟩ 10000
        LoadOutcome.failure).2 = false ∧
    (initialize_ai_components
        (force_init_reset ⟨true, true, some 100, true⟩) 10000
        LoadOutcome.failure).2 = true :=
  ⟨(failed_state_blocks_retry ⟨true, true, some 100, true⟩ 10000 10000
      LoadOutcome.failure LoadOutcome.failure (by decide)).1,
   (failed_state_blocks_retry ⟨true, true, some 100, true⟩ 10000 10000
      LoadOutcome.failure LoadOutcome.failure (by decide)).2.2⟩

/-! ## C10 -/

/-- C10: when the classifier handle has no loaded model or tokenizer,
`BertScamClassifier.predict` returns the neutral sentinel
`(0.5, 0.0)` instead of raising; consequently the ensemble score is
`clamp(0.35 + 0.3 × ruleScore, 0, 1)` — the unloaded classifier silently
contributes the constant `0.7 × 0.5 = 0.35` — with confidence `0.0`, and a
`/scan` call routed through such a classifier stays on the ML path
(`fallback_mode = false`, model version `Elephas-AI-v2.0`) instead of
triggering the rule fallback. -/
theorem unloaded_classifier_neutral (c : Classifier) (text : String)
    (features : Features) (st : AIState) (now : ℚ) (load : LoadOutcome)
    (ro : RegexOracle) (sender : String) (metadata : Metadata)
    (text2 : String)
    (hc : c.modelLoaded = false ∨ c.tokenizerLoaded = false)
    (hst : st.initialized = true) (hsc : st.has_risk_scorer = true)
    (hlen : 3 ≤ (pyStrip text2).length) :
    predict c text = (1/2, 0) ∧
    (scorer_score c text features).final_score =
      clamp (35/100 + (3/10) * calculate_rule_score features) 0 1 ∧
    (scorer_score c text features).bert_confidence = 0 ∧
    (scan_message st now load (ai_score_real ro c sender metadata)
      text2).fallback_mode = false ∧
    (scan_message st now load (ai_score_real ro c sender metadata)
      text2).model_version = some "Elephas-AI-v2.0" := by
  have hp : predict c text = (1/2, 0) := by
    unfold predict
    rcases hc with h | h <;> simp [h]
  have hp2 : ∀ t, predict c t = (1/2, 0) := by
    intro t
    unfold predict
    rcases hc with h | h <;> simp [h]
  have hpost : scan_post_init st now load = st := by
    unfold scan_post_init
    simp [hst]
  have hroute : ∀ r, (scan_message st now load
      (ai_score_real ro c sender metadata) text2) = r →
      r.fallback_mode = false ∧ r.model_version = some "Elephas-AI-v2.0" := by
    intro r hr
    rw [← hr]
    unfold scan_message
    rw [if_neg (by omega), hpost]
    simp [hst, hsc, ai_score_real]
  refine ⟨hp, ?_, ?_, (hroute _ rfl).1, (hroute _ rfl).2⟩
  · show min (max ((predict c text).1 * (7/10) +
        calculate_rule_score features * (3/10)) 0) 1 = _
    rw [hp]
    unfold clamp
    norm_num
    ring_nf
  · show (predict c text).2 = 0
    rw [hp]

/-! ## C9 -/

/-- Lookup skips a leading block none of whose keys match. -/
theorem lookup_append_right :
    ∀ (l₁ : Features) {l₂ : Features} {k : String},
      (∀ p ∈ l₁, (k == p.1) = false) →
      (l₁ ++ l₂).lookup k = l₂.lookup k
  | [], _, _, _ => rfl
  | (a, b) :: ps, l₂, k, h => by
      have ha : (k == a) = false := h (a, b) (by simp)
      simp only [List.cons_append, List.lookup, ha]
      exact lookup_append_right ps (fun q hq => h q (by simp [hq]))

/-- Looking up any of the four metadata keys in the full feature vector
reaches the metadata block: none of the other four signal families ever
emits one of those keys, for any input text or sender. -/
theorem extract_lookup_meta_key (ro : RegexOracle) (text sender : String)
    (metadata : Metadata) (k : String)
    (hk : k = "time_of_day" ∨ k = "is_weekend" ∨ k = "is_night_time" ∨
      k = "message_type") :
    (extract ro text sender metadata).lookup k =
      (if metadata.isEmpty then ([] : Features)
       else metadata_features metadata).lookup k := by
  have hb : ∀ p ∈ basic_features text, (k == p.1) = false := by
    intro p hp
    simp only [basic_features, List.mem_cons, List.not_mem_nil,
      or_false] at hp
    rcases hk with rfl | rfl | rfl | rfl <;>
      rcases hp with rfl | rfl | rfl | rfl | rfl | rfl | rfl | rfl <;> rfl
  have hc : ∀ p ∈ content_features ro text (lowerStr text),
      (k == p.1) = false := by
    intro p hp
    simp only [content_features, keyword_features, scam_keywords,
      List.foldr_cons, List.foldr_nil, List.mem_append, List.mem_cons,
      List.not_mem_nil, or_false] at hp
    rcases hp with ((hp | hp) | hp) | hp
    · rcases hk with rfl | rfl | rfl | rfl <;>
        rcases hp with rfl | rfl | rfl | rfl | rfl | rfl | rfl | rfl | rfl |
          rfl | rfl | rfl <;> rfl
    · rcases hk with rfl | rfl | rfl | rfl <;>
        rcases hp with rfl | rfl | rfl <;> rfl
    · rcases hk with rfl | rfl | rfl | rfl <;>
        rcases hp with rfl | rfl | rfl <;> rfl
    · by_cases hw : (pySplitWs (lowerStr text)).isEmpty
      · simp [hw] at hp
      · simp [hw] at hp
        rcases hk with rfl | rfl | rfl | rfl <;>
          rcases hp with rfl | rfl <;> rfl
  have hl : ∀ p ∈ linguistic_features text (lowerStr text),
      (k == p.1) = false := by
    intro p hp
    simp only [linguistic_features, List.mem_cons, List.not_mem_nil,
      or_false] at hp
    rcases hk with rfl | rfl | rfl | rfl <;>
      rcases hp with rfl | rfl | rfl | rfl | rfl | rfl <;> rfl
  have hs : ∀ p ∈ sender_features sender, (k == p.1) = false := by
    intro p hp
    by_cases he : sender.isEmpty
    · simp [sender_features, he] at hp
      rcases hk with rfl | rfl | rfl | rfl <;> rw [hp] <;> rfl
    · simp [sender_features, he] at hp
      rcases hk with rfl | rfl | rfl | rfl <;>
        rcases hp with rfl | rfl | rfl | rfl | rfl <;> rfl
  simp only [extract, List.append_assoc]
  rw [lookup_append_right _ hb, lookup_append_right _ hc,
    lookup_append_right _ hl, lookup_append_right _ hs]

/-- C9 counterexample: with an empty metadata dict — which the claim
explicitly covers — the extractor emits no metadata features at all: there
is no `is_night_time` key (so the flag is not `false`, it is absent) and no
`time_of_day` key, because the source guards the metadata block with
`if metadata:`, which an empty dict fails. For the text `"hello"` none of
the three regexes match, so the no-match oracle is the faithful external
behaviour. -/
theorem empty_metadata_no_defaults :
    ((extract noMatchOracle "hello" "" []).lookup "is_night_time") = none ∧
    ((extract noMatchOracle "hello" "" []).lookup "time_of_day") = none ∧
    ¬ ((extract noMatchOracle "hello" "" []).lookup "is_night_time" =
        some (FVal.b false)) := by
  decide

/-- C9 amended: the embedded extractor is a total function (it cannot
raise), and for every non-empty metadata dict that lacks an `hour` key the
neutral defaults apply: `time_of_day` is the raw default `12` and the
night-time flag is `false`, for every oracle, text and sender. For an
empty (or absent) metadata dict, however, the metadata features —
including the night-time flag — are omitted from the vector entirely
(downstream scoring treats the missing key like a falsy value). -/
theorem metadata_defaults (ro : RegexOracle) (text sender : String)
    (metadata : Metadata) (hne : metadata ≠ [])
    (hhour : metadata.lookup "hour" = none) :
    (extract ro text sender metadata).lookup "is_night_time" =
      some (FVal.b false) ∧
    (extract ro text sender metadata).lookup "time_of_day" =
      some (FVal.n 12) ∧
    (∀ (ro2 : RegexOracle) (t2 s2 : String),
      (extract ro2 t2 s2 []).lookup "is_night_time" = none) := by
  have hm : metadata.isEmpty = false := by
    cases metadata with
    | nil => exact absurd rfl hne
    | cons a l => rfl
  have hhour12 : metaHour metadata = 12 := by
    unfold metaHour
    rw [hhour]
  refine ⟨?_, ?_, ?_⟩
  · rw [extract_lookup_meta_key ro text sender metadata _
      (Or.inr (Or.inr (Or.inl rfl)))]
    simp only [hm, if_false, metadata_features, List.lookup, hhour12]
    norm_num
    rfl
  · rw [extract_lookup_meta_key ro text sender metadata _ (Or.inl rfl)]
    simp only [hm, if_false, metadata_features, List.lookup, hhour]
    rfl
  · intro ro2 t2 s2
    rw [extract_lookup_meta_key ro2 t2 s2 [] _
      (Or.inr (Or.inr (Or.inl rfl)))]
    rfl

/-- C9 amended witness: metadata carrying only a message type. -/
theorem metadata_defaults_witness :
    (extract noMatchOracle "hello there" "friend@example.com"
        [("type", FVal.s "sms")]).lookup "is_night_time" =
      some (FVal.b false) :=
  (metadata_defaults noMatchOracle "hello there" "friend@example.com"
      [("type", FVal.s "sms")] (by decide) (by decide)).1

/-- C10 witness: a classifier whose model never loaded, behind an
initialized state with a live scorer. -/
theorem unloaded_classifier_neutral_witness :
    predict ⟨false, false, fun _ => (1, 1)⟩ "hello" = (1/2, 0) :=
  (unloaded_classifier_neutral ⟨false, false, fun _ => (1, 1)⟩ "hello" []
      ⟨true, false, none, true⟩ 0 LoadOutcome.success noMatchOracle "" []
      "hello there" (Or.inl rfl) rfl rfl (by decide)).1

end ArmorApi
